import Mathlib

/-!
Verification of the `State-Transition-Diagrams` repository.

The repository renders state-transition diagrams of discrete-state
stochastic processes.  The parts embedded here are:

* `state_transition_diagrams/config.py` — the `DiagramConfig` dataclass
  (display options plus `to_js_config` serialisation);
* `renderer.py` — `render_state_diagram`, which turns a transition matrix
  into a node/edge graph description (node colors cycled through the
  palette, edges kept when the probability is at least the threshold,
  pen widths scaled by the matrix maximum and rounded to two decimals);
* `demo/app.py` — `_normalise_rows` and the iteration bookkeeping of
  `_simulate_training`.

Matrices are embedded as `List (List ℚ)` (numpy float arrays read
exactly); Python `round(x, 2)` (round-half-to-even) is embedded as
`pyRound2`.
-/

namespace STD

/-- One entry of `DiagramConfig.interactive_state_colors`
(config.py lines 112-125): a dict with `base`, `light`, `dark` string
fields and a `grad` list of strings. -/
structure ColorEntry where
  base : String
  light : String
  dark : String
  grad : List String
deriving DecidableEq, Repr

/-- Structure `DiagramConfig` (config.py lines 26-125): a plain dataclass of display
options.  Field defaults mirror the Python defaults exactly.  The dataclass
has no `__post_init__`: construction assigns the fields and never raises. -/
structure DiagramConfig where
  state_colors : List String :=
    ["#2E86AB", "#A23B72", "#F18F01", "#2CA58D",
     "#E84855", "#6B4226", "#7768AE", "#1B998B"]
  observation_fill : String := "#F1F5F9"
  observation_stroke : String := "#94A3B8"
  observation_text : String := "#334155"
  start_fill : String := "#F5F3FF"
  start_stroke : String := "#8B5CF6"
  start_text : String := "#5B21B6"
  background_color : String := "#FAFAFA"
  font_family : String := "Helvetica"
  mono_font_family : String := "JetBrains Mono, monospace"
  title : String := "State Transition Diagram"
  prob_threshold : ℚ := 0.01
  edge_color : String := "#333333"
  node_shape : String := "circle"
  node_radius : ℚ := 40.0
  layout_engine : String := "circo"
  output_format : String := "svg"
  particles_enabled : Bool := true
  decongestion_enabled : Bool := false
  animation_speed : ℚ := 1.0
  interactive_state_colors : List ColorEntry :=
    [⟨"#F59E0B", "#FDE68A", "#92400E", ["#FBBF24", "#D97706"]⟩,
     ⟨"#3B82F6", "#93C5FD", "#1E3A8A", ["#60A5FA", "#2563EB"]⟩,
     ⟨"#10B981", "#6EE7B7", "#064E3B", ["#34D399", "#059669"]⟩,
     ⟨"#F43F5E", "#FDA4AF", "#881337", ["#FB7185", "#E11D48"]⟩,
     ⟨"#8B5CF6", "#C4B5FD", "#4C1D95", ["#A78BFA", "#7C3AED"]⟩,
     ⟨"#06B6D4", "#67E8F9", "#155E75", ["#22D3EE", "#0891B2"]⟩,
     ⟨"#EC4899", "#F9A8D4", "#831843", ["#F472B6", "#DB2777"]⟩,
     ⟨"#14B8A6", "#5EEAD4", "#134E4A", ["#2DD4BF", "#0D9488"]⟩,
     ⟨"#F97316", "#FDBA74", "#7C2D12", ["#FB923C", "#EA580C"]⟩,
     ⟨"#6366F1", "#A5B4FC", "#3730A3", ["#818CF8", "#4F46E5"]⟩,
     ⟨"#84CC16", "#BEF264", "#3F6212", ["#A3E635", "#65A30D"]⟩,
     ⟨"#E879F9", "#F0ABFC", "#701A75", ["#D946EF", "#C026D3"]⟩]
deriving DecidableEq, Repr

/-- The error taxonomy the specification names for invalid settings. -/
inductive ConfigError where
  | configurationError
deriving DecidableEq, Repr

/-- Construction of `DiagramConfig` as the source performs it: the
dataclass `__init__` stores the given values and has no validation code
(config.py lines 26-125 contain no `__post_init__` and no checks), so it
never raises.  The result is wrapped in `Except` so that the claimed
possibility of a `ConfigurationError` is expressible. -/
def DiagramConfig.construct (animation_speed prob_threshold : ℚ) :
    Except ConfigError DiagramConfig :=
  .ok { animation_speed := animation_speed, prob_threshold := prob_threshold }

/-- The default config `DiagramConfig()` with no arguments: all defaults (used by
`render_state_diagram` when `config is None`). -/
def DiagramConfig.default : DiagramConfig := {}

/-! ### JSON values

`DiagramConfig.to_js_config` serialises a fixed dictionary with
`json.dumps`.  The Python `json` module is standard-library plumbing
external to this repository; we embed the serialised payload as a JSON
value (`Json`) and reason about field lookup on it, which is what
`json.loads` of the emitted string yields. -/

/-- A JSON value (the fragment `to_js_config` emits: objects, arrays,
strings, booleans, numbers). -/
inductive Json where
  | str : String → Json
  | num : ℚ → Json
  | bool : Bool → Json
  | arr : List Json → Json
  | obj : List (String × Json) → Json

/-- Field lookup on a JSON object, as `json.loads(...)["key"]` would. -/
def Json.lookup (j : Json) (key : String) : Option Json :=
  match j with
  | .obj kvs => kvs.lookup key
  | _ => none

/-- The JSON encoding of one `interactive_state_colors` entry. -/
def ColorEntry.toJson (c : ColorEntry) : Json :=
  .obj [("base", .str c.base), ("light", .str c.light),
        ("dark", .str c.dark), ("grad", .arr (c.grad.map .str))]

/-- Method `DiagramConfig.to_js_config` (config.py lines 127-157): the dictionary
passed to `json.dumps`, key for key in source order. -/
def DiagramConfig.to_js_config (cfg : DiagramConfig) : Json :=
  .obj [("stateColors", .arr (cfg.interactive_state_colors.map ColorEntry.toJson)),
        ("obsColor", .obj [("fill", .str cfg.observation_fill),
                           ("stroke", .str cfg.observation_stroke),
                           ("dark", .str cfg.observation_text)]),
        ("piColor", .obj [("fill", .str cfg.start_fill),
                          ("stroke", .str cfg.start_stroke),
                          ("dark", .str cfg.start_text)]),
        ("particlesEnabled", .bool cfg.particles_enabled),
        ("decongestionEnabled", .bool cfg.decongestion_enabled),
        ("animationSpeed", .num cfg.animation_speed),
        ("fontFamily", .str cfg.font_family),
        ("monoFontFamily", .str cfg.mono_font_family)]

/-! ### The static renderer (`renderer.py`) -/

/-- Entry access `A[i, j]` on the embedded matrix. -/
def Aget (A : List (List ℚ)) (i j : ℕ) : ℚ :=
  (A.getD i []).getD j 0

/-- numpy `A.max()`: the largest entry of the matrix.  On an empty matrix
(numpy raises; never reached from the renderer, whose matrices have
`N ≥ 1` rows) the seed `0` is returned. -/
def matrixMax (A : List (List ℚ)) : ℚ :=
  A.flatten.foldl max (A.flatten.headD 0)

/-- renderer.py line 118: `max_prob = A.max() if A.max() > 0 else 1.0`. -/
def maxProb (A : List (List ℚ)) : ℚ :=
  if matrixMax A > 0 then matrixMax A else 1.0

/-- Python `round` to the nearest integer: half-way cases go to the even
neighbour (round-half-to-even). -/
def pyRoundInt (q : ℚ) : ℤ :=
  let f := ⌊q⌋
  let frac := q - f
  if frac < 1/2 then f
  else if 1/2 < frac then f + 1
  else if f % 2 = 0 then f else f + 1

/-- Python `round(x, 2)`: round to two decimal places. -/
def pyRound2 (q : ℚ) : ℚ :=
  (pyRoundInt (q * 100) : ℚ) / 100

/-- One node emitted by `dot.node` (renderer.py lines 101-115): the
attributes the claims are about. -/
structure Node where
  id : ℕ
  label : String
  fillcolor : String
deriving DecidableEq, Repr

/-- One edge emitted by `dot.edge` (renderer.py lines 130-138): the
attributes the claims are about. -/
structure Edge where
  src : ℕ
  tgt : ℕ
  weight : ℚ
  penwidth : ℚ
  color : String
deriving DecidableEq, Repr

/-- The node loop of `render_state_diagram` (renderer.py lines 100-115):
node `i` is filled with `state_colors[i % len(state_colors)]`. -/
def renderNodes (state_labels : List String) (cfg : DiagramConfig) : List Node :=
  (state_labels.enum).map (fun p =>
    { id := p.1, label := p.2,
      fillcolor := cfg.state_colors.getD (p.1 % cfg.state_colors.length) "" })

/-- The edge loop of `render_state_diagram` (renderer.py lines 117-138):
for `i` and `j` in `range(N)`, skip when `A[i, j] < prob_threshold`,
otherwise emit an edge with `penwidth = round(0.5 + 3.5 * (p / max_prob), 2)`
and the self-loop color rule of lines 126-129. -/
def renderEdges (A : List (List ℚ)) (cfg : DiagramConfig) (prob_threshold : ℚ) :
    List Edge :=
  let N := A.length
  let mp := maxProb A
  (List.range N).flatMap (fun i =>
    (List.range N).filterMap (fun j =>
      let p := Aget A i j
      if p < prob_threshold then none
      else some { src := i, tgt := j, weight := p,
                  penwidth := pyRound2 (0.5 + 3.5 * (p / mp)),
                  color := if i ≠ j then cfg.edge_color
                           else cfg.state_colors.getD
                             (i % cfg.state_colors.length) "" }))

/-- The graph description `render_state_diagram` returns. -/
structure Digraph where
  nodes : List Node
  edges : List Edge
deriving DecidableEq, Repr

/-- Function `render_state_diagram` (renderer.py lines 30-148): default labels
`S0, S1, …` when none are given, the default config when none is given,
the config threshold when none is given; nodes then edges. -/
def render_state_diagram (A : List (List ℚ))
    (state_labels : Option (List String))
    (config : Option DiagramConfig)
    (prob_threshold : Option ℚ) : Digraph :=
  let cfg := config.getD DiagramConfig.default
  let t := prob_threshold.getD cfg.prob_threshold
  let N := A.length
  let labels := state_labels.getD ((List.range N).map (fun i => "S" ++ toString i))
  { nodes := renderNodes labels cfg, edges := renderEdges A cfg t }

/-! ### The demo application (`demo/app.py`) -/

/-- Function `_normalise_rows` (demo/app.py lines 64-68): per-row sums,
zero sums replaced by `1.0`, then the elementwise division
`matrix / sums`. -/
def normaliseRows (m : List (List ℚ)) : List (List ℚ) :=
  m.map (fun row =>
    let s := row.sum
    let s2 := if s = 0 then 1 else s
    row.map (fun x => x / s2))

/-- One element of the list `_simulate_training` returns
(demo/app.py lines 118-124). -/
structure Snapshot where
  A : List (List ℚ)
  B : List (List ℚ)
  pi : List ℚ
  iteration : ℕ
  log_likelihood : ℚ

/-- The mutable loop state of `_simulate_training`
(the matrices `A`, `B`, the vector `pi` and the log-likelihood `ll`). -/
structure SimState where
  A : List (List ℚ)
  B : List (List ℚ)
  pi : List ℚ
  ll : ℚ

/-- The loop of `_simulate_training` (demo/app.py lines 107-126),
run for `k` more iterations with `i` the next value of the loop counter:
the body updates the state and appends a snapshot whose `iteration` field
is the counter `i`.  The numpy and rng arithmetic of the body
(lines 109-116) is abstracted as `step`; the iteration bookkeeping the
claims are about is concrete. -/
def simulateAux (step : ℕ → SimState → SimState) : ℕ → ℕ → SimState → List Snapshot
  | 0, _, _ => []
  | k + 1, i, s =>
    let s2 := step i s
    { A := s2.A, B := s2.B, pi := s2.pi,
      iteration := i, log_likelihood := s2.ll } :: simulateAux step k (i + 1) s2

/-- Function `_simulate_training` (demo/app.py lines 85-126): the loop
`for i in range(1, n_iterations + 1)` starting from the initial
parameters. -/
def simulateTraining (n_iterations : ℕ) (init : SimState)
    (step : ℕ → SimState → SimState) : List Snapshot :=
  simulateAux step n_iterations 1 init

/-! ### Concrete fixtures used by the scenario claims -/

/-- Scenario A matrix `[[0.7, 0.3], [0.4, 0.6]]`. -/
def scenarioA : List (List ℚ) :=
  [[mkRat 7 10, mkRat 3 10], [mkRat 4 10, mkRat 6 10]]

/-- Scenario B matrix `[[0.95, 0.05], [0.02, 0.98]]`. -/
def scenarioB : List (List ℚ) :=
  [[mkRat 95 100, mkRat 5 100], [mkRat 2 100, mkRat 98 100]]

/-- The 3×3 identity transition matrix of scenario C. -/
def identity3 : List (List ℚ) := [[1, 0, 0], [0, 1, 0], [0, 0, 1]]

/-- The all-zero n×n transition matrix. -/
def zeroMatrix (n : ℕ) : List (List ℚ) :=
  List.replicate n (List.replicate n 0)

/-- A matrix whose weights 0 and 1/10000 round to the same pen width. -/
def nearTie2 : List (List ℚ) := [[1, 0], [0, 1/10000]]

/-- Rows with a zero sum (entries cancel) and a positive sum. -/
def mixedRows : List (List ℚ) := [[1, -1], [2, 2]]

/-- A placeholder edge for out-of-range list reads in concrete statements. -/
def dummyEdge : Edge := { src := 0, tgt := 0, weight := 0, penwidth := 0, color := "" }

/-- A placeholder node for out-of-range list reads in concrete statements. -/
def dummyNode : Node := { id := 0, label := "", fillcolor := "" }

/-- A two-color palette (shorter than three states), as in the
`test_labels_cycling_when_fewer_colours` test. -/
def paletteTwo : DiagramConfig :=
  { DiagramConfig.default with state_colors := ["#AA0000", "#00BB00"] }

/-- A trivial initial state for instantiating the training simulator. -/
def initialSimState : SimState := { A := [], B := [], pi := [], ll := 0 }

/-! ### Helper lemmas -/

/-- The divisor of the pen-width formula is always positive: line 118 of
renderer.py replaces a non-positive maximum by `1.0`. -/
theorem maxProb_pos (A : List (List ℚ)) : 0 < maxProb A := by
  unfold maxProb
  split
  · assumption
  · norm_num

theorem le_pyRoundInt (q : ℚ) : ⌊q⌋ ≤ pyRoundInt q := by
  simp only [pyRoundInt]
  split_ifs <;> omega

theorem pyRoundInt_le (q : ℚ) : pyRoundInt q ≤ ⌊q⌋ + 1 := by
  simp only [pyRoundInt]
  split_ifs <;> omega

/-- Round-half-to-even is monotone. -/
theorem pyRoundInt_mono {q r : ℚ} (h : q ≤ r) : pyRoundInt q ≤ pyRoundInt r := by
  rcases lt_or_eq_of_le (Int.floor_mono h : ⌊q⌋ ≤ ⌊r⌋) with hf | hf
  · calc pyRoundInt q ≤ ⌊q⌋ + 1 := pyRoundInt_le q
      _ ≤ ⌊r⌋ := by omega
      _ ≤ pyRoundInt r := le_pyRoundInt r
  · simp only [pyRoundInt, ← hf]
    have hqr : q - (⌊q⌋ : ℚ) ≤ r - (⌊q⌋ : ℚ) := by linarith
    split_ifs <;> first | omega | linarith

/-- Rounding to two decimals is monotone. -/
theorem pyRound2_mono {q r : ℚ} (h : q ≤ r) : pyRound2 q ≤ pyRound2 r := by
  unfold pyRound2
  have h1 := pyRoundInt_mono (by linarith : q * 100 ≤ r * 100)
  have h2 : ((pyRoundInt (q * 100) : ℚ)) ≤ (pyRoundInt (r * 100) : ℚ) := by
    exact_mod_cast h1
  linarith

/-- Rounding to two decimals never drops below the `0.5` base width. -/
theorem half_le_pyRound2 {q : ℚ} (h : 1/2 ≤ q) : 1/2 ≤ pyRound2 q := by
  unfold pyRound2
  have h50 : (50 : ℤ) ≤ ⌊q * 100⌋ := Int.le_floor.mpr (by push_cast; linarith)
  have h51 := le_pyRoundInt (q * 100)
  have h52 : (50 : ℚ) ≤ (pyRoundInt (q * 100) : ℚ) := by exact_mod_cast le_trans h50 h51
  linarith

/-- Anatomy of an emitted edge: indices in range, weight read from the
matrix, weight at least the threshold, pen width from the rounded
formula of renderer.py line 124. -/
theorem renderEdges_mem_spec {A : List (List ℚ)} {cfg : DiagramConfig} {t : ℚ}
    {e : Edge} (he : e ∈ renderEdges A cfg t) :
    e.src < A.length ∧ e.tgt < A.length ∧ e.weight = Aget A e.src e.tgt ∧
      t ≤ e.weight ∧
      e.penwidth = pyRound2 (0.5 + 3.5 * (e.weight / maxProb A)) := by
  unfold renderEdges at he
  simp only [List.mem_flatMap, List.mem_filterMap, List.mem_range] at he
  obtain ⟨i, hi, j, hj, hij⟩ := he
  split at hij
  · exact absurd hij (by simp)
  · next hlt =>
    injection hij with hij
    subst hij
    exact ⟨hi, hj, rfl, not_lt.mp hlt, rfl⟩

/-- An edge `(i, j)` is emitted exactly when `A[i, j]` is at least the
threshold (the `continue` of renderer.py line 122-123). -/
theorem renderEdges_mem_iff {A : List (List ℚ)} {cfg : DiagramConfig} {t : ℚ}
    {i j : ℕ} (hi : i < A.length) (hj : j < A.length) :
    (∃ e ∈ renderEdges A cfg t, e.src = i ∧ e.tgt = j) ↔ t ≤ Aget A i j := by
  constructor
  · rintro ⟨e, he, hs, ht⟩
    obtain ⟨_, _, hw, hts, _⟩ := renderEdges_mem_spec he
    rw [hs, ht] at hw
    exact hw ▸ hts
  · intro h
    refine ⟨{ src := i, tgt := j, weight := Aget A i j,
              penwidth := pyRound2 (0.5 + 3.5 * (Aget A i j / maxProb A)),
              color := if i ≠ j then cfg.edge_color
                       else cfg.state_colors.getD (i % cfg.state_colors.length) "" },
            ?_, rfl, rfl⟩
    unfold renderEdges
    simp only [List.mem_flatMap, List.mem_filterMap, List.mem_range]
    exact ⟨i, hi, j, hj, by rw [if_neg (not_lt.mpr h)]⟩

/-- The nested loop `for i in range(N): for j in range(N)` emits edges in
ascending source order, and ascending target order within a source. -/
theorem edges_pairwise (A : List (List ℚ)) (cfg : DiagramConfig) (t : ℚ) :
    (renderEdges A cfg t).Pairwise
      (fun e1 e2 => e1.src < e2.src ∨ (e1.src = e2.src ∧ e1.tgt < e2.tgt)) := by
  unfold renderEdges
  refine List.pairwise_flatMap.mpr ⟨?_, ?_⟩
  · intro i _
    refine List.pairwise_filterMap.mpr ?_
    refine (List.pairwise_lt_range _).imp ?_
    intro j1 j2 hj b hb b2 hb2
    rw [Option.mem_def, Option.ite_none_left_eq_some] at hb hb2
    obtain ⟨-, hb⟩ := hb
    obtain ⟨-, hb2⟩ := hb2
    injection hb with hb
    injection hb2 with hb2
    subst hb; subst hb2
    exact Or.inr ⟨rfl, hj⟩
  · refine (List.pairwise_lt_range _).imp ?_
    intro i1 i2 hi x hx y hy
    simp only [List.mem_filterMap, List.mem_range, Option.ite_none_left_eq_some] at hx hy
    obtain ⟨j, -, -, hj⟩ := hx
    obtain ⟨j2, -, -, hj2⟩ := hy
    injection hj with hj
    injection hj2 with hj2
    subst hj; subst hj2
    exact Or.inl hi

/-- Folding `max` from a non-positive seed over non-positive entries stays
non-positive. -/
theorem foldl_max_nonpos {l : List ℚ} {a : ℚ} (ha : a ≤ 0) (hl : ∀ x ∈ l, x ≤ 0) :
    l.foldl max a ≤ 0 := by
  induction l generalizing a with
  | nil => simpa using ha
  | cons x xs ih =>
    refine ih (max_le ha (hl x (by simp))) ?_
    intro y hy
    exact hl y (by simp [hy])

/-- On the all-zero matrix the renderer falls back to a maximum of `1`. -/
theorem maxProb_zeroMatrix (n : ℕ) : maxProb (zeroMatrix n) = 1 := by
  have hmem : ∀ x ∈ (zeroMatrix n).flatten, x = (0:ℚ) := by
    intro x hx
    rw [List.mem_flatten] at hx
    obtain ⟨l, hl, hxl⟩ := hx
    rw [zeroMatrix, List.mem_replicate] at hl
    rw [hl.2, List.mem_replicate] at hxl
    exact hxl.2
  have hb : (zeroMatrix n).flatten.headD 0 ≤ 0 := by
    cases hfl : (zeroMatrix n).flatten with
    | nil => simp
    | cons y ys =>
      have hy := hmem y (by simp [hfl])
      simp [hy]
  have hfold : matrixMax (zeroMatrix n) ≤ 0 :=
    foldl_max_nonpos hb (fun x hx => le_of_eq (hmem x hx))
  unfold maxProb
  rw [if_neg (by linarith)]
  norm_num

/-- Every entry read from the all-zero matrix is `0`. -/
theorem Aget_zeroMatrix (n i j : ℕ) : Aget (zeroMatrix n) i j = 0 := by
  unfold Aget
  rcases lt_or_ge i n with h | h
  · have hrow : (zeroMatrix n).getD i [] = List.replicate n 0 := by
      rw [zeroMatrix, List.getD_eq_getElem _ _ (by simpa using h), List.getElem_replicate]
    rw [hrow]
    rcases lt_or_ge j n with h2 | h2
    · rw [List.getD_eq_getElem _ _ (by simpa using h2), List.getElem_replicate]
    · rw [List.getD_eq_default _ _ (by simpa using h2)]
  · have hrow : (zeroMatrix n).getD i [] = [] := by
      rw [zeroMatrix, List.getD_eq_default _ _ (by simpa using h)]
    rw [hrow]
    rfl

/-- Entries read through `Aget` from an entrywise non-negative matrix are
non-negative (out-of-range reads default to `0`). -/
theorem Aget_nonneg {A : List (List ℚ)} (hA : ∀ row ∈ A, ∀ x ∈ row, 0 ≤ x)
    (i j : ℕ) : 0 ≤ Aget A i j := by
  unfold Aget
  rcases lt_or_ge i A.length with h | h
  · rw [List.getD_eq_getElem _ _ h]
    rcases lt_or_ge j (A[i].length) with h2 | h2
    · rw [List.getD_eq_getElem _ _ h2]
      exact hA _ (List.getElem_mem h) _ (List.getElem_mem h2)
    · rw [List.getD_eq_default _ _ h2]
  · rw [List.getD_eq_default _ _ h]
    rfl

/-- The iteration counter written into the snapshots is the loop counter:
running `k` more iterations from counter `i` records `i, i+1, …, i+k-1`. -/
theorem simulateAux_map_iteration (step : ℕ → SimState → SimState) :
    ∀ (k i : ℕ) (s : SimState),
      (simulateAux step k i s).map Snapshot.iteration = List.range' i k := by
  intro k
  induction k with
  | zero => intro i s; rfl
  | succ k ih =>
    intro i s
    rw [simulateAux, List.map_cons, ih, List.range'_succ]

/-- Specialisation to the full run: indices are `1, …, n_iterations`. -/
theorem simulateTraining_map_iteration (n : ℕ) (init : SimState)
    (step : ℕ → SimState → SimState) :
    (simulateTraining n init step).map Snapshot.iteration = List.range' 1 n :=
  simulateAux_map_iteration step n 1 init

/-- Dividing every element of a list divides its sum. -/
theorem sum_map_div (l : List ℚ) (c : ℚ) :
    (l.map (fun x => x / c)).sum = l.sum / c := by
  induction l with
  | nil => simp
  | cons x xs ih => simp [ih, add_div]

/-- Row `i` of `_normalise_rows` is row `i` of the input divided by its
(zero-replaced) sum. -/
theorem normaliseRows_getD (m : List (List ℚ)) (i : ℕ) (hi : i < m.length) :
    (normaliseRows m).getD i [] =
      (m.getD i []).map (fun x =>
        x / (if (m.getD i []).sum = 0 then 1 else (m.getD i []).sum)) := by
  unfold normaliseRows
  rw [List.getD_eq_getElem _ _ (by simpa using hi), List.getElem_map,
      List.getD_eq_getElem _ _ hi]

/-! ### Claim theorems -/

/-- C1: for every transition matrix and threshold, `render_state_diagram`
draws the edge `(i, j)` exactly when `A[i, j]` is at least the threshold;
for the matrix `[[0.7,0.3],[0.4,0.6]]` at threshold `0.0` exactly 4 edges
are drawn, and for `[[0.95,0.05],[0.02,0.98]]` at threshold `0.1` exactly
2 edges, both self-loops. -/
theorem C1_threshold_edge_selection (A : List (List ℚ)) (cfg : DiagramConfig)
    (t : ℚ) (i j : ℕ) (hi : i < A.length) (hj : j < A.length) :
    ((∃ e ∈ (render_state_diagram A none (some cfg) (some t)).edges,
        e.src = i ∧ e.tgt = j) ↔ t ≤ Aget A i j) ∧
    (render_state_diagram scenarioA none none (some 0)).edges.length = 4 ∧
    (render_state_diagram scenarioB none none (some (mkRat 1 10))).edges.length = 2 ∧
    (∀ e ∈ (render_state_diagram scenarioB none none (some (mkRat 1 10))).edges,
        e.src = e.tgt) := by
  refine ⟨renderEdges_mem_iff hi hj, ?_, ?_, ?_⟩ <;> decide

/-- Witness for C1 at the scenario A matrix, threshold 0, edge (0, 1). -/
theorem C1_threshold_edge_selection_witness :
    ((∃ e ∈ (render_state_diagram scenarioA none (some DiagramConfig.default)
        (some 0)).edges, e.src = 0 ∧ e.tgt = 1) ↔ (0:ℚ) ≤ Aget scenarioA 0 1) ∧
    (render_state_diagram scenarioA none none (some 0)).edges.length = 4 ∧
    (render_state_diagram scenarioB none none (some (mkRat 1 10))).edges.length = 2 ∧
    (∀ e ∈ (render_state_diagram scenarioB none none (some (mkRat 1 10))).edges,
        e.src = e.tgt) :=
  C1_threshold_edge_selection scenarioA DiagramConfig.default 0 0 1
    (by decide) (by decide)

/-- C2 fails as stated: the threshold `0` is `≤ 1.0`, yet the 3×3 identity
matrix then yields 9 edges (every zero entry satisfies `0 ≥ 0`), not 3. -/
theorem C2_counterexample :
    (0:ℚ) ≤ 1 ∧
    (render_state_diagram identity3 none none (some 0)).edges.length = 9 := by
  exact ⟨by decide, by decide⟩

/-- C2 amended: for every *positive* threshold `t ≤ 1.0` the 3×3 identity
matrix yields exactly 3 edges, all self-loops, whether the de-congestion
flag is on or off (the static renderer ignores it). -/
theorem C2_identity_selfloops (t : ℚ) (h0 : 0 < t) (h1 : t ≤ 1) (dec : Bool) :
    (render_state_diagram identity3 none
        (some { DiagramConfig.default with decongestion_enabled := dec })
        (some t)).edges.length = 3 ∧
    ∀ e ∈ (render_state_diagram identity3 none
        (some { DiagramConfig.default with decongestion_enabled := dec })
        (some t)).edges, e.src = e.tgt := by
  have hne : ¬((1:ℚ) < t) := not_lt.mpr h1
  constructor <;>
    simp [render_state_diagram, renderEdges, identity3, Aget, List.range_succ,
      hne, h0]

/-- Witness for the amended C2 at threshold 1 with de-congestion on. -/
theorem C2_identity_selfloops_witness :
    ((render_state_diagram identity3 none
        (some { DiagramConfig.default with decongestion_enabled := true })
        (some 1)).edges.length = 3 ∧
    ∀ e ∈ (render_state_diagram identity3 none
        (some { DiagramConfig.default with decongestion_enabled := true })
        (some 1)).edges, e.src = e.tgt) :=
  C2_identity_selfloops 1 (by norm_num) (by norm_num) true

/-- C3: with a palette shorter than the state count (and non-empty, as any
real palette is), node `i` is filled with palette entry `i mod P`. -/
theorem C3_palette_cycling (A : List (List ℚ)) (cfg : DiagramConfig) (i : ℕ)
    (hi : i < A.length)
    (_hP : 0 < cfg.state_colors.length)
    (_hPN : cfg.state_colors.length < A.length) :
    ((render_state_diagram A none (some cfg) none).nodes.getD i dummyNode).fillcolor
      = cfg.state_colors.getD (i % cfg.state_colors.length) "" := by
  show ((renderNodes _ cfg).getD i dummyNode).fillcolor = _
  unfold renderNodes
  rw [List.getD_eq_getElem _ _ (by simpa using hi)]
  simp

/-- Witness for C3: 3 states, 2 colors, node 2 wraps to color 0. -/
theorem C3_palette_cycling_witness :
    ((render_state_diagram identity3 none (some paletteTwo) none).nodes.getD 2
        dummyNode).fillcolor
      = paletteTwo.state_colors.getD (2 % paletteTwo.state_colors.length) "" :=
  C3_palette_cycling identity3 paletteTwo 2 (by decide) (by decide) (by decide)

/-- C4: on degenerate input the renderer never divides by zero — the
all-zero matrix gets fallback maximum `1`, the divisor is positive for
every matrix — and it still returns a graph with the right number of
nodes and in-range edges (a single-state matrix included). -/
theorem C4_degenerate_input (n : ℕ) (cfg : DiagramConfig) (t x : ℚ) :
    maxProb (zeroMatrix n) = 1 ∧
    (∀ B : List (List ℚ), 0 < maxProb B) ∧
    (render_state_diagram (zeroMatrix n) none (some cfg) (some t)).nodes.length = n ∧
    (∀ e ∈ (render_state_diagram (zeroMatrix n) none (some cfg) (some t)).edges,
        e.src < n ∧ e.tgt < n ∧ e.penwidth = 1/2) ∧
    (render_state_diagram [[x]] none (some cfg) (some t)).nodes.length = 1 := by
  refine ⟨maxProb_zeroMatrix n, maxProb_pos, ?_, ?_, ?_⟩
  · show (renderNodes _ _).length = n
    simp [renderNodes, zeroMatrix]
  · intro e he
    obtain ⟨hs, ht, hw, hts, hp⟩ := renderEdges_mem_spec he
    have hl : (zeroMatrix n).length = n := by simp [zeroMatrix]
    rw [hl] at hs ht
    refine ⟨hs, ht, ?_⟩
    rw [hp, hw, Aget_zeroMatrix, maxProb_zeroMatrix]
    norm_num [pyRound2, pyRoundInt]
  · show (renderNodes _ _).length = 1
    simp [renderNodes]

/-- Witness for C4 at `n = 3`, default config, threshold 0. -/
theorem C4_degenerate_input_witness :
    maxProb (zeroMatrix 3) = 1 ∧
    (render_state_diagram (zeroMatrix 3) none (some DiagramConfig.default)
        (some 0)).nodes.length = 3 :=
  ⟨(C4_degenerate_input 3 DiagramConfig.default 0 5).1,
   (C4_degenerate_input 3 DiagramConfig.default 0 5).2.2.1⟩

/-- C5 fails as stated: constructing the settings object with the invalid
value `animation_speed = -1` succeeds (the dataclass stores it), instead
of failing with `ConfigurationError`. -/
theorem C5_counterexample :
    DiagramConfig.construct (-1) (mkRat 1 100) =
      Except.ok { animation_speed := -1, prob_threshold := mkRat 1 100 } ∧
    DiagramConfig.construct (-1) (mkRat 1 100) ≠
      Except.error ConfigError.configurationError :=
  ⟨rfl, by simp [DiagramConfig.construct]⟩

/-- C5 amended: construction of `DiagramConfig` performs no validation at
all — it always succeeds and stores the given animation speed and
probability threshold unchecked. -/
theorem C5_no_validation (s t : ℚ) :
    DiagramConfig.construct s t =
      Except.ok { animation_speed := s, prob_threshold := t } := rfl

/-- C6 fails as stated: in the matrix `[[1,0],[0,1/10000]]` the edges
`(0,1)` (weight 0) and `(1,1)` (weight 1/10000) have strictly ordered
weights but the same drawn pen width `0.5`, because the width is rounded
to two decimals — so width is not strictly increasing in weight. -/
theorem C6_counterexample :
    ((render_state_diagram nearTie2 none none (some 0)).edges.getD 1 dummyEdge).weight
      < ((render_state_diagram nearTie2 none none (some 0)).edges.getD 3 dummyEdge).weight ∧
    ((render_state_diagram nearTie2 none none (some 0)).edges.getD 1 dummyEdge).penwidth
      = ((render_state_diagram nearTie2 none none (some 0)).edges.getD 3 dummyEdge).penwidth := by
  have h7 : Int.fract ((10007:ℚ)/200) = 7/200 := by
    unfold Int.fract
    norm_num
  have hE : (render_state_diagram nearTie2 none none (some 0)).edges =
      [{ src := 0, tgt := 0, weight := 1, penwidth := 4, color := "#2E86AB" },
       { src := 0, tgt := 1, weight := 0, penwidth := 1/2, color := "#333333" },
       { src := 1, tgt := 0, weight := 0, penwidth := 1/2, color := "#333333" },
       { src := 1, tgt := 1, weight := 1/10000, penwidth := 1/2, color := "#A23B72" }] := by
    show renderEdges nearTie2 DiagramConfig.default 0 = _
    norm_num [renderEdges, nearTie2, Aget, maxProb, matrixMax, pyRound2,
      pyRoundInt, DiagramConfig.default, List.range_succ, max_def,
      List.filterMap_cons, h7]
  rw [hE]
  norm_num

/-- C6 amended: for entrywise non-negative matrices the drawn pen width is
clamped to the visible minimum `0.5` (zero-weight edges included) and is
non-decreasing in the weight; strict monotonicity is lost to the
two-decimal rounding of renderer.py line 124. -/
theorem C6_penwidth_weight (A : List (List ℚ)) (cfg : DiagramConfig) (t : ℚ)
    (hA : ∀ row ∈ A, ∀ x ∈ row, 0 ≤ x) :
    (∀ e ∈ (render_state_diagram A none (some cfg) (some t)).edges,
        1/2 ≤ e.penwidth) ∧
    (∀ e1 ∈ (render_state_diagram A none (some cfg) (some t)).edges,
      ∀ e2 ∈ (render_state_diagram A none (some cfg) (some t)).edges,
        e1.weight ≤ e2.weight → e1.penwidth ≤ e2.penwidth) := by
  have hmp := maxProb_pos A
  constructor
  · intro e he
    obtain ⟨-, -, hw, -, hp⟩ := renderEdges_mem_spec he
    rw [hp]
    apply half_le_pyRound2
    have hw0 : 0 ≤ e.weight := by rw [hw]; exact Aget_nonneg hA _ _
    have hdiv : 0 ≤ e.weight / maxProb A := div_nonneg hw0 hmp.le
    linarith
  · intro e1 h1 e2 h2 hle
    obtain ⟨-, -, -, -, hp1⟩ := renderEdges_mem_spec h1
    obtain ⟨-, -, -, -, hp2⟩ := renderEdges_mem_spec h2
    rw [hp1, hp2]
    apply pyRound2_mono
    have hdiv : e1.weight / maxProb A ≤ e2.weight / maxProb A :=
      (div_le_div_iff_of_pos_right hmp).mpr hle
    linarith

/-- Witness for the amended C6 at the scenario A matrix. -/
theorem C6_penwidth_weight_witness :
    (∀ e ∈ (render_state_diagram scenarioA none (some DiagramConfig.default)
        (some 0)).edges, 1/2 ≤ e.penwidth) ∧
    (∀ e1 ∈ (render_state_diagram scenarioA none (some DiagramConfig.default)
        (some 0)).edges,
      ∀ e2 ∈ (render_state_diagram scenarioA none (some DiagramConfig.default)
        (some 0)).edges,
        e1.weight ≤ e2.weight → e1.penwidth ≤ e2.penwidth) :=
  C6_penwidth_weight scenarioA DiagramConfig.default 0 (by decide)

/-- C7: edge selection is deterministic — the same matrix and threshold
give the same edge sequence — and the sequence is emitted in stable order,
source index ascending and then target index ascending. -/
theorem C7_deterministic_stable_order (A : List (List ℚ)) (cfg : DiagramConfig)
    (t : ℚ) :
    (render_state_diagram A none (some cfg) (some t)).edges
      = (render_state_diagram A none (some cfg) (some t)).edges ∧
    (render_state_diagram A none (some cfg) (some t)).edges.Pairwise
      (fun e1 e2 => e1.src < e2.src ∨ (e1.src = e2.src ∧ e1.tgt < e2.tgt)) :=
  ⟨rfl, edges_pairwise A cfg t⟩

/-- Witness for C7 at the scenario A matrix. -/
theorem C7_deterministic_stable_order_witness :
    (render_state_diagram scenarioA none (some DiagramConfig.default)
        (some 0)).edges.Pairwise
      (fun e1 e2 => e1.src < e2.src ∨ (e1.src = e2.src ∧ e1.tgt < e2.tgt)) :=
  (C7_deterministic_stable_order scenarioA DiagramConfig.default 0).2

/-- C8: the simulated training run records iteration indices that are
exactly `1, …, n_iterations`: equal to `range' 1 n`, strictly increasing,
each at least 1, and without duplicates. -/
theorem C8_iteration_indices (n : ℕ) (init : SimState)
    (step : ℕ → SimState → SimState) :
    ((simulateTraining n init step).map Snapshot.iteration = List.range' 1 n) ∧
    ((simulateTraining n init step).map Snapshot.iteration).Pairwise (· < ·) ∧
    (∀ s ∈ simulateTraining n init step, 1 ≤ s.iteration) ∧
    ((simulateTraining n init step).map Snapshot.iteration).Nodup := by
  have hmap := simulateTraining_map_iteration n init step
  refine ⟨hmap, ?_, ?_, ?_⟩
  · rw [hmap]
    exact List.pairwise_lt_range' 1 n
  · intro s hs
    have hmem : s.iteration ∈ List.range' 1 n := by
      rw [← hmap]
      exact List.mem_map_of_mem _ hs
    obtain ⟨k, hk, heq⟩ := List.mem_range'.mp hmem
    omega
  · rw [hmap]
    exact List.nodup_range' 1 n

/-- Witness for C8 on a 5-iteration run. -/
theorem C8_iteration_indices_witness :
    (simulateTraining 5 initialSimState (fun _ s => s)).map Snapshot.iteration
      = List.range' 1 5 :=
  (C8_iteration_indices 5 initialSimState (fun _ s => s)).1

/-- C9: `_normalise_rows` is total and division-safe — rows with a zero
sum are returned unchanged (the zero is replaced by 1 before dividing) and
rows with a positive sum are rescaled to sum exactly 1. -/
theorem C9_normalise_rows (m : List (List ℚ)) (i : ℕ) (hi : i < m.length) :
    (normaliseRows m).length = m.length ∧
    ((m.getD i []).sum = 0 → (normaliseRows m).getD i [] = m.getD i []) ∧
    (0 < (m.getD i []).sum → ((normaliseRows m).getD i []).sum = 1) := by
  refine ⟨by simp [normaliseRows], ?_, ?_⟩
  · intro h0
    rw [normaliseRows_getD m i hi, if_pos h0]
    simp
  · intro hpos
    have hne : (m.getD i []).sum ≠ 0 := ne_of_gt hpos
    rw [normaliseRows_getD m i hi, if_neg hne, sum_map_div]
    exact div_self hne

/-- Witness for C9: row `[1, -1]` (zero sum) is unchanged, row `[2, 2]`
(positive sum) is rescaled to sum 1. -/
theorem C9_normalise_rows_witness :
    ((normaliseRows mixedRows).getD 0 [] = mixedRows.getD 0 []) ∧
    (((normaliseRows mixedRows).getD 1 []).sum = 1) :=
  ⟨(C9_normalise_rows mixedRows 0 (by norm_num [mixedRows])).2.1
      (by norm_num [mixedRows]),
   (C9_normalise_rows mixedRows 1 (by norm_num [mixedRows])).2.2
      (by norm_num [mixedRows])⟩

/-- C10: the serialised interactive configuration carries exactly the
configured values — looking up `particlesEnabled`, `decongestionEnabled`,
`animationSpeed`, `fontFamily` and `monoFontFamily` returns the matching
config fields, and `stateColors` is the encoding of
`interactive_state_colors`. -/
theorem C10_to_js_config_fields (cfg : DiagramConfig) :
    (cfg.to_js_config).lookup "particlesEnabled"
        = some (.bool cfg.particles_enabled) ∧
    (cfg.to_js_config).lookup "decongestionEnabled"
        = some (.bool cfg.decongestion_enabled) ∧
    (cfg.to_js_config).lookup "animationSpeed"
        = some (.num cfg.animation_speed) ∧
    (cfg.to_js_config).lookup "fontFamily"
        = some (.str cfg.font_family) ∧
    (cfg.to_js_config).lookup "monoFontFamily"
        = some (.str cfg.mono_font_family) ∧
    (cfg.to_js_config).lookup "stateColors"
        = some (.arr (cfg.interactive_state_colors.map ColorEntry.toJson)) := by
  refine ⟨?_, ?_, ?_, ?_, ?_, ?_⟩ <;> rfl

end STD
